import Mathlib

/-!
# Verification of the host-function bridge (`runtime/wasm/src/host_exports.rs`)

A shallow embedding of the host exports of the wasm runtime bridge:
gas-metered host operations callable from sandboxed mapping code, the
error/determinism taxonomy, the block-scoped entity cache, and the
classification of ethereum contract-call failures.

Pure functions of the source file are translated to Lean functions;
stateful operations return an explicit output record carrying the
mutated cache, proof-of-indexing log and gas counter next to the
`Except` result.  Collaborators that live outside the source file
(the gas cost model, the entity cache, the schema validator, the
blockchain adapter, the content resolver) are passed in as explicit
parameters or modelled from the spec, as marked on each definition.
-/

set_option autoImplicit false

namespace HostExportsModel

/-- Modelled from the spec (§7, `crate::error::DeterminismLevel` is not part
of the provided source): the determinism classification attached to every
failure crossing the sandbox boundary. -/
inductive DeterminismLevel where
  | deterministic
  | possibleReorg
  | unimplemented
  deriving DecidableEq, Repr

/-- `DeterministicHostError` wraps an error message; the Rust type wraps an
`anyhow::Error`, which we model by its rendered message. -/
abbrev DeterministicHostError := String

/-- `anyhow::Error` is modelled by its rendered message. -/
abbrev AnyhowError := String

/-- `HostExportError` (host_exports.rs lines 48-55): an error that is either
known to be deterministic or of unknown determinism. -/
inductive HostExportError where
  | unknown (msg : String)
  | deterministic (msg : String)
  deriving DecidableEq, Repr

/-- `impl From<anyhow::Error> for HostExportError` (lines 57-61): a bare
`anyhow::Error` is classified `Unknown`. -/
def HostExportError.fromAnyhow (e : AnyhowError) : HostExportError :=
  HostExportError.unknown e

/-- `impl IntoTrap for HostExportError::determinism_level` (lines 63-69). -/
def HostExportError.determinismLevel : HostExportError → DeterminismLevel
  | HostExportError.deterministic _ => DeterminismLevel.deterministic
  | HostExportError.unknown _ => DeterminismLevel.unimplemented

/-- `EthereumCallError` (lines 29-34): the classification of a failed
`ethereum_call`. -/
inductive EthereumCallError where
  /-- We might have detected a reorg. -/
  | possibleReorg (msg : String)
  | unknown (msg : String)
  | deterministicHostError (msg : String)
  deriving DecidableEq, Repr

/-- `impl From<anyhow::Error> for EthereumCallError` (lines 36-40): a bare
`anyhow::Error` — in particular every ABI/function resolution failure
propagated with `?` — becomes `Unknown`. -/
def EthereumCallError.fromAnyhow (e : AnyhowError) : EthereumCallError :=
  EthereumCallError.unknown e

/-- `impl From<DeterministicHostError> for EthereumCallError` (lines 42-46). -/
def EthereumCallError.fromDeterministic (e : DeterministicHostError) : EthereumCallError :=
  EthereumCallError.deterministicHostError e

/-! ## Gas accounting

`crate::gas` is not part of the provided source file; it is modelled from
spec §4.1: a monotonic counter with a fixed budget, `consume(cost)` failing
deterministically once the budget is exceeded.  The exact cost formulas do
not decide any claim; they are modelled as simple positive size-based
costs following the complexity classes named at each call site. -/

/-- Modelled from the spec (§3 Gas/GasCounter): a single non-negative
accumulator bounded by a fixed budget. -/
structure GasCounter where
  used : Nat
  budget : Nat
  deriving DecidableEq, Repr

/-- Modelled from the spec (§4.1): `consume(cost)` adds to the accumulator
and fails deterministically when the budget is exceeded. -/
def consume_host_fn (g : GasCounter) (cost : Nat) : Except DeterministicHostError GasCounter :=
  if g.budget < g.used + cost then
    Except.error "Gas limit exceeded"
  else
    Except.ok { g with used := g.used + cost }

/-! ## Values, entities, keys -/

/-- Modelled from the spec (§3 Entity): the tagged value type of entity
fields. -/
inductive Value where
  | str (s : String)
  | bool (b : Bool)
  | int (n : Int)
  | bigInt (n : Int)
  | bigDecimal (q : Rat)
  | bytes (bs : List Nat)
  | list (vs : List Value)
  | null

mutual

/-- Structural equality of values (`PartialEq` on the Rust `Value`). -/
def Value.beq : Value → Value → Bool
  | Value.str a, Value.str b => a == b
  | Value.bool a, Value.bool b => a == b
  | Value.int a, Value.int b => a == b
  | Value.bigInt a, Value.bigInt b => a == b
  | Value.bigDecimal a, Value.bigDecimal b => a == b
  | Value.bytes a, Value.bytes b => a == b
  | Value.list a, Value.list b => Value.beqList a b
  | Value.null, Value.null => true
  | _, _ => false

/-- Pointwise structural equality of value lists. -/
def Value.beqList : List Value → List Value → Bool
  | [], [] => true
  | a :: as, b :: bs => Value.beq a b && Value.beqList as bs
  | _, _ => false

end

/-- Modelled from the spec: the display of a `Value`, used only inside error
messages. -/
def Value.display : Value → String
  | Value.str s => s
  | Value.bool b => toString b
  | Value.int n => toString n
  | Value.bigInt n => toString n
  | Value.bigDecimal q => toString q.num ++ "/" ++ toString q.den
  | Value.bytes bs => toString bs
  | Value.list _ => "[list]"
  | Value.null => "null"

/-- An entity: a field-name-to-value map (`HashMap<String, Value>`),
modelled as an association list looked up by first match. -/
abbrev Entity := List (String × Value)

/-- First-match field lookup in an entity. -/
def getField : Entity → String → Option Value
  | [], _ => none
  | (k, v) :: rest, f => if k = f then some v else getField rest f

/-- Remove every binding of a field. -/
def removeField (e : Entity) (f : String) : Entity :=
  e.filter (fun p => ¬ (p.1 = f))

/-- `HashMap::insert`: stores the binding and returns the previous value. -/
def insertField (e : Entity) (f : String) (v : Value) : Entity × Option Value :=
  ((f, v) :: removeField e f, getField e f)

/-- `EntityKey` (graph::components::store, used at lines 221-225):
(subgraph id, entity type, entity id). -/
structure EntityKey where
  subgraphId : String
  entityType : String
  entityId : String
  deriving DecidableEq, Repr

/-! ## Proof of indexing -/

/-- `ProofOfIndexingEvent` (graph::components::subgraph, used at lines
195-199 and 262-266). -/
inductive PoiEvent where
  | setEntity (entityType : String) (id : String) (data : Entity)
  | removeEntity (entityType : String) (id : String)

/-- `SharedProofOfIndexing`: an optional append-only log of
(causality region, event) pairs, modelled from the spec (§3). -/
abbrev ProofOfIndexing := Option (List (String × PoiEvent))

/-- `proof_of_indexing.write(logger, causality_region, event)`: append when
the log is present. -/
def poiWrite (poi : ProofOfIndexing) (region : String) (ev : PoiEvent) : ProofOfIndexing :=
  match poi with
  | none => none
  | some l => some (l ++ [(region, ev)])

/-! ## Entity cache

The write-buffering entity cache lives outside the provided source file;
it is modelled from spec §3: a buffer mapping `EntityKey` to a pending
mutation, queried before falling back to the underlying store, a read of a
pending write returning the cache entity layered over the previous store
state. -/

/-- Modelled from the spec: a pending mutation buffered in the cache. -/
inductive CacheOp where
  | update (e : Entity)
  | removed

/-- The entity cache: pending mutations keyed by `EntityKey`, first match
wins. -/
abbrev EntityCache := List (EntityKey × CacheOp)

/-- First-match lookup in the cache. -/
def cacheLookup : EntityCache → EntityKey → Option CacheOp
  | [], _ => none
  | (k, op) :: rest, key => if k = key then some op else cacheLookup rest key

/-- Modelled from the spec: the overlay entity's fields layered over the
base (previous store state); overlay fields win. -/
def mergeEntity (base overlay : Entity) : Entity :=
  overlay ++ base.filter (fun p => (getField overlay p.1).isNone)

/-- `EntityCache::set` (modelled from the spec): buffer a pending update. -/
def cacheSet (cache : EntityCache) (key : EntityKey) (e : Entity) : EntityCache :=
  (key, CacheOp.update e) :: cache

/-- `EntityCache::remove` (modelled from the spec): buffer a tombstone. -/
def cacheRemove (cache : EntityCache) (key : EntityKey) : EntityCache :=
  (key, CacheOp.removed) :: cache

/-- `EntityCache::get` (modelled from the spec): the merged view — a pending
update layered over the underlying store entity, a tombstone hiding it, and
otherwise the plain store read. -/
def cacheGet (cache : EntityCache) (store : EntityKey → Option Entity) (key : EntityKey) :
    Option Entity :=
  match cacheLookup cache key with
  | some (CacheOp.update e) =>
    match store key with
    | some base => some (mergeEntity base e)
    | none => some e
  | some CacheOp.removed => none
  | none => store key

/-! ## Gas cost model (modelled from the spec, §4.1)

Only the success/failure of a charge decides a claim; sizes are simple
structural measures and every declared cost includes a positive base. -/

/-- Modelled from the spec: base cost of cheap host calls. -/
def DEFAULT_BASE_COST : Nat := 100

/-- Modelled from the spec: size measure of a value. -/
def valueSize : Value → Nat
  | Value.str s => 1 + s.length
  | Value.bool _ => 1
  | Value.int _ => 9
  | Value.bigInt n => 1 + n.natAbs
  | Value.bigDecimal _ => 9
  | Value.bytes bs => 1 + bs.length
  | Value.list vs => 1 + vs.length
  | Value.null => 1

/-- Modelled from the spec: size measure of an entity. -/
def entitySize (e : Entity) : Nat :=
  e.foldl (fun acc p => acc + p.1.length + valueSize p.2) 1

/-- Modelled from the spec: size measure of an entity key. -/
def keySize (k : EntityKey) : Nat :=
  k.subgraphId.length + k.entityType.length + k.entityId.length

/-- `gas::STORE_SET.with_args(complexity::Linear, (&key, &data))` (line 227),
modelled from the spec. -/
def store_set_cost (key : EntityKey) (data : Entity) : Nat :=
  DEFAULT_BASE_COST + keySize key + entitySize data

/-- `gas::STORE_REMOVE.with_args(complexity::Size, &key)` (line 275),
modelled from the spec. -/
def store_remove_cost (key : EntityKey) : Nat :=
  DEFAULT_BASE_COST + keySize key

/-- `gas::ETHEREUM_CALL` (line 309), modelled from the spec: a constant
cost. -/
def ethereum_call_cost : Nat := 1000

/-- Modelled from the spec: size-proportional cost of an operation on one
integer operand. -/
def intGasCost (n : Int) : Nat := DEFAULT_BASE_COST + n.natAbs

/-- Modelled from the spec: `complexity::Mul` cost over two integer
operands. -/
def intMulGasCost (x y : Int) : Nat := DEFAULT_BASE_COST + x.natAbs * y.natAbs

/-- Modelled from the spec: `complexity::Mul` cost over two decimal
operands (decimal sizes are a constant measure here). -/
def decimalMulGasCost : Nat := DEFAULT_BASE_COST

/-- Modelled from the spec: `complexity::Size` cost of a string operand. -/
def strGasCost (s : String) : Nat := DEFAULT_BASE_COST + s.length

/-! ## HostExports -/

/-- A function of a contract ABI; `ethabi::Function` is external, modelled
from the spec (§3 UnresolvedContractCall) by its name and signature
string. -/
structure AbiFunction where
  name : String
  signature : String
  deriving DecidableEq, Repr

/-- An ABI contract: its list of functions. -/
abbrev Contract := List AbiFunction

/-- `MappingABI`: a named ABI contract attached to the data source. -/
structure MappingABI where
  name : String
  contract : Contract
  deriving DecidableEq, Repr

/-- `UnresolvedContractCall` (crate-level, used at lines 302-370). -/
structure UnresolvedContractCall where
  contractName : String
  functionSignature : Option String
  functionName : String
  contractAddress : Nat
  functionArgs : List Nat
  deriving DecidableEq, Repr

/-- `EthereumContractCall` (lines 365-370); tokens are opaque and modelled
as naturals. -/
structure EthereumContractCall where
  address : Nat
  blockPtr : Nat
  function : AbiFunction
  args : List Nat
  deriving DecidableEq, Repr

/-- `EthereumContractCallError` (graph_chain_ethereum): the adapter-side
result classification consumed at lines 379-408. -/
inductive EthereumContractCallError where
  | revert (reason : String)
  | web3Error (msg : String)
  | timeout
  | other (msg : String)
  deriving DecidableEq, Repr

/-- The fields of `HostExports` (lines 83-103) that the verified operations
read. -/
structure HostExports where
  subgraphId : String
  dataSourceName : String
  causalityRegion : String
  abis : List MappingABI
  deriving DecidableEq, Repr

/-! ## store_set / store_remove (host_exports.rs lines 178-280) -/

/-- The outcome of a `store_set` call: the `Result` value together with the
state threaded by mutable reference in Rust (entity cache, proof of
indexing, gas counter) and the number of underlying-store reads the call
performed. -/
structure StoreSetOut where
  res : Except AnyhowError Unit
  cache : EntityCache
  poi : ProofOfIndexing
  gas : GasCounter
  dbReads : Nat

/-- The conflicting-`id` error message of `store_set` (lines 208-214). -/
def conflictMsg (entityType : String) (v : Value) (entityId : String) : String :=
  "Value of " ++ entityType ++
    " attribute \x27id\x27 conflicts with ID passed to `store.set()`: " ++
    v.display ++ " != " ++ entityId

/-- The tail of `store_set` after the `id` insertion (lines 221-246): build
the key, charge gas, fetch the schema, validate optimistically, write the
cache, and re-validate the merged entity only when the optimistic check
failed. -/
def store_set_after_id (h : HostExports) (store : EntityKey → Option Entity)
    (schemaRes : Except AnyhowError String)
    (validate : String → EntityKey → Entity → Bool)
    (poi1 : ProofOfIndexing) (cache : EntityCache)
    (entityType entityId : String) (data1 : Entity) (gas : GasCounter) : StoreSetOut :=
  let key : EntityKey := ⟨h.subgraphId, entityType, entityId⟩
  match consume_host_fn gas (store_set_cost key data1) with
  | Except.error e => ⟨Except.error e, cache, poi1, gas, 0⟩
  | Except.ok gas1 =>
    match schemaRes with
    | Except.error e => ⟨Except.error e, cache, poi1, gas1, 0⟩
    | Except.ok schema =>
      let isValid := validate schema key data1
      let cache1 := cacheSet cache key data1
      if isValid then
        ⟨Except.ok (), cache1, poi1, gas1, 0⟩
      else
        -- the optimistic check failed: re-read the merged entity and
        -- re-validate (lines 237-245); this hits the underlying store once
        match cacheGet cache1 store key with
        | none => ⟨Except.error "we just stored this entity", cache1, poi1, gas1, 1⟩
        | some merged =>
          if validate schema key merged then
            ⟨Except.ok (), cache1, poi1, gas1, 1⟩
          else
            ⟨Except.error ("Entity validation failed for " ++ entityType), cache1, poi1, gas1, 1⟩

/-- `HostExports::store_set` (lines 178-247).  The schema lookup
(`store.input_schema`) and the schema validator (`validate_entity`, external
`graph_graphql`) are passed in as parameters; `schemaRes` is the result of
`self.store.input_schema(&self.subgraph_id)` and `validate` returns whether
`validate_entity(&schema.document, &key, &entity)` is `Ok`.  The underlying
store read used by the cache's merged view is `store`. -/
def store_set (h : HostExports) (store : EntityKey → Option Entity)
    (schemaRes : Except AnyhowError String)
    (validate : String → EntityKey → Entity → Bool)
    (poi : ProofOfIndexing) (cache : EntityCache)
    (entityType entityId : String) (data : Entity) (gas : GasCounter) : StoreSetOut :=
  -- proof-of-indexing write happens first, with the caller-supplied data
  let poi1 := poiWrite poi h.causalityRegion (PoiEvent.setEntity entityType entityId data)
  -- automatically add an "id" value
  let inserted := insertField data "id" (Value.str entityId)
  let data1 := inserted.1
  match inserted.2 with
  | some v =>
    if Value.beq v (Value.str entityId) then
      store_set_after_id h store schemaRes validate poi1 cache entityType entityId data1 gas
    else
      ⟨Except.error (conflictMsg entityType v entityId), cache, poi1, gas, 0⟩
  | none =>
    store_set_after_id h store schemaRes validate poi1 cache entityType entityId data1 gas

/-- The outcome of a `store_remove` call. -/
structure StoreRemoveOut where
  res : Except HostExportError Unit
  cache : EntityCache
  poi : ProofOfIndexing
  gas : GasCounter

/-- `HostExports::store_remove` (lines 249-280). -/
def store_remove (h : HostExports) (poi : ProofOfIndexing) (cache : EntityCache)
    (entityType entityId : String) (gas : GasCounter) : StoreRemoveOut :=
  let poi1 := poiWrite poi h.causalityRegion (PoiEvent.removeEntity entityType entityId)
  let key : EntityKey := ⟨h.subgraphId, entityType, entityId⟩
  match consume_host_fn gas (store_remove_cost key) with
  | Except.error e => ⟨Except.error (HostExportError.deterministic e), cache, poi1, gas⟩
  | Except.ok gas1 => ⟨Except.ok (), cacheRemove cache key, poi1, gas1⟩

/-! ## ethereum_call (host_exports.rs lines 301-418) -/

/-- `ethabi::Contract::function(name)` (used at line 333, apiVersion <
0.0.4): the first function with the given name. -/
def contractFunction (c : Contract) (fname : String) : Option AbiFunction :=
  c.find? (fun f => f.name = fname)

/-- `ethabi::Contract::functions_by_name(name)` (used at line 345): all
overloads with the given name. -/
def contractFunctionsByName (c : Contract) (fname : String) : List AbiFunction :=
  c.filter (fun f => f.name = fname)

/-- The function-resolution step of `ethereum_call` (lines 328-363): by name
when no signature is given, by exact signature match otherwise; the error is
the rendered `anyhow` context message. -/
def resolveFunction (c : Contract) (call : UnresolvedContractCall) :
    Except AnyhowError AbiFunction :=
  match call.functionSignature with
  | none =>
    match contractFunction c call.functionName with
    | some f => Except.ok f
    | none =>
      Except.error ("Unknown function \"" ++ call.contractName ++ "::" ++
        call.functionName ++ "\" called from WASM runtime")
  | some signature =>
    match contractFunctionsByName c call.functionName with
    | [] =>
      Except.error ("Unknown function \"" ++ call.contractName ++ "::" ++
        call.functionName ++ "\" called from WASM runtime")
    | f :: fs =>
      match (f :: fs).find? (fun g => signature = g.signature) with
      | some g => Except.ok g
      | none =>
        Except.error ("Unknown function \"" ++ call.contractName ++ "::" ++
          call.functionName ++ "\" with signature `" ++ signature ++
          "` called from WASM runtime")

/-- The ABI-contract lookup of `ethereum_call` (lines 314-326). -/
def resolveContract (abis : List MappingABI) (contractName : String) :
    Except AnyhowError Contract :=
  match abis.find? (fun abi => abi.name = contractName) with
  | some abi => Except.ok abi.contract
  | none =>
    Except.error ("Could not find ABI for contract \"" ++ contractName ++
      "\", try adding it to the \x27abis\x27 section of the subgraph manifest")

/-- `HostExports::ethereum_call` (lines 301-418).  The blockchain adapter
(`eth_adapter.contract_call`, a collaborator outside the source file) is a
parameter; `Ok(None)` means the call was reverted. -/
def ethereum_call (h : HostExports)
    (adapter : EthereumContractCall → Except EthereumContractCallError (List Nat))
    (blockPtr : Nat) (call : UnresolvedContractCall) (gas : GasCounter) :
    Except EthereumCallError (GasCounter × Option (List Nat)) :=
  match consume_host_fn gas ethereum_call_cost with
  | Except.error e => Except.error (EthereumCallError.fromDeterministic e)
  | Except.ok gas1 =>
    match resolveContract h.abis call.contractName with
    | Except.error e => Except.error (EthereumCallError.fromAnyhow e)
    | Except.ok contract =>
      match resolveFunction contract call with
      | Except.error e => Except.error (EthereumCallError.fromAnyhow e)
      | Except.ok f =>
        let ecall : EthereumContractCall :=
          ⟨call.contractAddress, blockPtr, f, call.functionArgs⟩
        match adapter ecall with
        | Except.ok tokens => Except.ok (gas1, some tokens)
        | Except.error (EthereumContractCallError.revert _) => Except.ok (gas1, none)
        | Except.error (EthereumContractCallError.web3Error e) =>
          Except.error (EthereumCallError.possibleReorg
            ("Ethereum node returned an error when calling function \"" ++
              call.functionName ++ "\" of contract \"" ++ call.contractName ++ "\": " ++ e))
        | Except.error EthereumContractCallError.timeout =>
          Except.error (EthereumCallError.possibleReorg
            ("Ethereum node did not respond when calling function \"" ++
              call.functionName ++ "\" of contract \"" ++ call.contractName ++ "\""))
        | Except.error (EthereumContractCallError.other e) =>
          Except.error (EthereumCallError.unknown
            ("Failed to call function \"" ++ call.functionName ++
              "\" of contract \"" ++ call.contractName ++ "\": " ++ e))

/-! ## abort (host_exports.rs lines 146-176) -/

/-- The possible outcomes of `HostExports::abort`: the deterministic error
it returns, a failed gas charge, or the `unreachable!()` panic of the
location `match` (line 169). -/
inductive AbortOutcome where
  | detErr (msg : String)
  | gasFail (msg : String)
  | panicUnreachable
  deriving DecidableEq, Repr

/-- Whether an abort outcome is the deterministic error return. -/
def AbortOutcome.isDetErr : AbortOutcome → Bool
  | AbortOutcome.detErr _ => true
  | _ => false

/-- `HostExports::abort` (lines 146-176). -/
def abort (message fileName : Option String) (lineNumber columnNumber : Option Nat)
    (gas : GasCounter) : AbortOutcome :=
  match consume_host_fn gas DEFAULT_BASE_COST with
  | Except.error e => AbortOutcome.gasFail e
  | Except.ok _ =>
    let message :=
      match message with
      | some m => "message: " ++ m
      | none => "no message"
    match fileName, lineNumber, columnNumber with
    | none, none, none =>
      AbortOutcome.detErr ("Mapping aborted at an unknown location, with " ++ message)
    | some f, none, none =>
      AbortOutcome.detErr ("Mapping aborted at " ++ f ++ ", with " ++ message)
    | some f, some l, none =>
      AbortOutcome.detErr ("Mapping aborted at " ++ f ++ ", line " ++ toString l ++
        ", with " ++ message)
    | some f, some l, some c =>
      AbortOutcome.detErr ("Mapping aborted at " ++ f ++ ", line " ++ toString l ++
        ", column " ++ toString c ++ ", with " ++ message)
    | _, _, _ => AbortOutcome.panicUnreachable

/-! ## Arbitrary-precision arithmetic (host_exports.rs lines 578-787)

`BigInt` is modelled as `Int`; the Rust `/` and `%` on `num::BigInt`
truncate toward zero, which is `Int.tdiv` / `Int.tmod`.  `BigDecimal`
is modelled as `Rat`; only zero-testing and the success/failure shape of
division are relied on by any claim. -/

/-- `HostExports::big_int_divided_by` (lines 608-622). -/
def big_int_divided_by (x y : Int) (gas : GasCounter) :
    Except DeterministicHostError (GasCounter × Int) :=
  match consume_host_fn gas (intMulGasCost x y) with
  | Except.error e => Except.error e
  | Except.ok gas1 =>
    if y = 0 then
      Except.error ("attempted to divide BigInt `" ++ toString x ++ "` by zero")
    else
      Except.ok (gas1, x.tdiv y)

/-- `HostExports::big_int_mod` (lines 624-638). -/
def big_int_mod (x y : Int) (gas : GasCounter) :
    Except DeterministicHostError (GasCounter × Int) :=
  match consume_host_fn gas (intMulGasCost x y) with
  | Except.error e => Except.error e
  | Except.ok gas1 =>
    if y = 0 then
      Except.error ("attempted to calculate the remainder of `" ++ toString x ++
        "` with a divisor of zero")
    else
      Except.ok (gas1, x.tmod y)

/-- `HostExports::big_decimal_divided_by` (lines 743-757).  The bigdecimal
crate rounds the quotient to 100 decimal digits of precision; the quotient
value is not relied on by any claim and is modelled as the exact rational
quotient. -/
def big_decimal_divided_by (x y : Rat) (gas : GasCounter) :
    Except DeterministicHostError (GasCounter × Rat) :=
  match consume_host_fn gas decimalMulGasCost with
  | Except.error e => Except.error e
  | Except.ok gas1 =>
    if y = 0 then
      Except.error ("attempted to divide BigDecimal `" ++ toString x.num ++ "/" ++
        toString x.den ++ "` by zero")
    else
      Except.ok (gas1, x / y)

/-! ## big_int_to_hex (host_exports.rs lines 420-441) -/

/-- Fuel-driven computation of the minimal big-endian base-256 digit string
of a natural number; the fuel only makes the recursion structural, any fuel
of at least `n` computes the digits of `n`. -/
def natToBytesBEGo : Nat → Nat → List Nat
  | _, 0 => []
  | 0, _ + 1 => []
  | fuel + 1, n + 1 => natToBytesBEGo fuel ((n + 1) / 256) ++ [(n + 1) % 256]

/-- `num::BigInt::to_bytes_be().1`: the minimal big-endian byte string of
the magnitude (empty for zero). -/
def natToBytesBE (n : Nat) : List Nat :=
  natToBytesBEGo n n

/-- The lowercase hex digit of a nibble (`hex::encode` alphabet). -/
def hexDigitChar (n : Nat) : Char :=
  if n = 0 then '0' else if n = 1 then '1' else if n = 2 then '2'
  else if n = 3 then '3' else if n = 4 then '4' else if n = 5 then '5'
  else if n = 6 then '6' else if n = 7 then '7' else if n = 8 then '8'
  else if n = 9 then '9' else if n = 10 then 'a' else if n = 11 then 'b'
  else if n = 12 then 'c' else if n = 13 then 'd' else if n = 14 then 'e'
  else 'f'

/-- `hex::encode` of one byte: two lowercase hex digits. -/
def byteToHex (b : Nat) : List Char :=
  [hexDigitChar (b / 16), hexDigitChar (b % 16)]

/-- `hex::encode`: each byte as two lowercase hex digits. -/
def hexOfBytes (bs : List Nat) : List Char :=
  bs.flatMap byteToHex

/-- `str::trim_start_matches` with the zero character: drop every leading
`0` character. -/
def trimLeadingZeros : List Char → List Char
  | [] => []
  | c :: rest => if c = '0' then trimLeadingZeros rest else c :: rest

/-- `HostExports::big_int_to_hex` (lines 425-441): zero prints as `0x0`;
otherwise the magnitude bytes, hex-encoded, with leading zero hex digits
stripped. -/
def big_int_to_hex (n : Int) (gas : GasCounter) :
    Except DeterministicHostError (GasCounter × String) :=
  match consume_host_fn gas (intGasCost n) with
  | Except.error e => Except.error e
  | Except.ok gas1 =>
    if n = 0 then
      Except.ok (gas1, "0x0")
    else
      Except.ok (gas1,
        "0x" ++ String.mk (trimLeadingZeros (hexOfBytes (natToBytesBE n.natAbs))))

/-- The numeric value of a hex digit character (either case), if any. -/
def hexCharVal (c : Char) : Option Nat :=
  if c = '0' then some 0 else if c = '1' then some 1 else if c = '2' then some 2
  else if c = '3' then some 3 else if c = '4' then some 4 else if c = '5' then some 5
  else if c = '6' then some 6 else if c = '7' then some 7 else if c = '8' then some 8
  else if c = '9' then some 9 else if c = 'a' then some 10 else if c = 'b' then some 11
  else if c = 'c' then some 12 else if c = 'd' then some 13 else if c = 'e' then some 14
  else if c = 'f' then some 15 else if c = 'A' then some 10 else if c = 'B' then some 11
  else if c = 'C' then some 12 else if c = 'D' then some 13 else if c = 'E' then some 14
  else if c = 'F' then some 15 else none

/-- Decode a hex digit string to a natural number, most significant digit
first, starting from an accumulator. -/
def hexDecodeFrom (acc : Nat) : List Char → Option Nat
  | [] => some acc
  | c :: cs =>
    match hexCharVal c with
    | some v => hexDecodeFrom (acc * 16 + v) cs
    | none => none

/-- Decode a hex digit string to a natural number. -/
def hexDecode (cs : List Char) : Option Nat :=
  hexDecodeFrom 0 cs

/-! ## string_to_h160 (host_exports.rs lines 915-922 and 975-981) -/

/-- `str::trim_start_matches("0x")`: drop every leading occurrence of the
two-character pattern `0x`. -/
def trimStart0x : List Char → List Char
  | a :: b :: rest => if a = '0' ∧ b = 'x' then trimStart0x rest else a :: b :: rest
  | l => l

/-- `H160::from_str` (web3/fixed-hash, external): exactly 40 hex characters
(either case, no prefix) parsed big-endian, anything else is an error;
modelled from the spec. -/
def h160FromStr (cs : List Char) : Except AnyhowError Nat :=
  if cs.length = 40 ∧ (∀ c ∈ cs, (hexCharVal c).isSome) then
    match hexDecode cs with
    | some n => Except.ok n
    | none => Except.error "Invalid input length"
  else
    Except.error "Invalid input length"

/-- The free function `string_to_h160` (lines 975-981): strip the leading
`0x` matches, then parse with `H160::from_str`. -/
def string_to_h160 (s : List Char) : Except DeterministicHostError Nat :=
  match h160FromStr (trimStart0x s) with
  | Except.ok a => Except.ok a
  | Except.error _ =>
    Except.error ("Failed to convert string to Address/H160: \x27" ++
      String.mk (trimStart0x s) ++ "\x27")

/-- `HostExports::string_to_h160` (lines 915-922): charge gas, then call the
free function. -/
def string_to_h160_gassed (s : List Char) (gas : GasCounter) :
    Except DeterministicHostError (GasCounter × Nat) :=
  match consume_host_fn gas (strGasCost (String.mk s)) with
  | Except.error e => Except.error e
  | Except.ok gas1 =>
    match string_to_h160 s with
    | Except.ok a => Except.ok (gas1, a)
    | Except.error e => Except.error e

/-! ## ipfs_map (host_exports.rs lines 457-514) -/

/-- A parsed record of the streamed newline-delimited JSON file
(`JsonValueStream` items): its line number and JSON value; the JSON value
itself is opaque and modelled as a string. -/
structure JsonRecord where
  line : Nat
  value : String
  deriving DecidableEq, Repr

/-- A block state collected from one callback invocation; only the entity
cache component matters to the claims. -/
abbrev BlockStateOut := EntityCache

/-- The outcome of `ipfs_map`: its result and whether the content resolver
was asked for the file (`link_resolver.json_stream`). -/
structure IpfsMapOut where
  res : Except AnyhowError (List BlockStateOut)
  fetched : Bool

/-- The per-record loop of `ipfs_map` (lines 489-511): run the callback on
each streamed value in order, collecting the produced block states; a
failing callback aborts the whole loop. -/
def ipfsMapLoop (callback : String → Value → Except AnyhowError BlockStateOut)
    (userData : Value) : List JsonRecord → Except AnyhowError (List BlockStateOut)
  | [] => Except.ok []
  | r :: rs =>
    match callback r.value userData with
    | Except.error e => Except.error e
    | Except.ok st =>
      match ipfsMapLoop callback userData rs with
      | Except.error e => Except.error e
      | Except.ok sts => Except.ok (st :: sts)

/-- `HostExports::ipfs_map` (lines 457-514).  The content resolver's
`json_stream` result and the spawned-instance callback
(`handle_json_callback`, both collaborators outside the source file) are
parameters.  The flag check precedes any resolver access; every error
escaping the stream loop is wrapped with the contextual message naming the
callback and the link. -/
def ipfs_map (streamRes : Except AnyhowError (List JsonRecord))
    (callback : String → Value → Except AnyhowError BlockStateOut)
    (link : String) (callbackName : String) (userData : Value)
    (flags : List String) : IpfsMapOut :=
  if ¬ flags.contains "json" then
    ⟨Except.error "Flags must contain \x27json\x27", false⟩
  else
    let errmsg := "ipfs_map: callback \x27" ++ callbackName ++
      "\x27 failed when processing file \x27" ++ link ++ "\x27"
    match streamRes with
    | Except.error e => ⟨Except.error (errmsg ++ ": " ++ e), true⟩
    | Except.ok records =>
      match ipfsMapLoop callback userData records with
      | Except.error e => ⟨Except.error (errmsg ++ ": " ++ e), true⟩
      | Except.ok sts => ⟨Except.ok sts, true⟩

/-! ## Helper predicates -/

/-- Whether an `Except` value is a success. -/
def exceptIsOk {e a : Type} : Except e a → Bool
  | Except.ok _ => true
  | Except.error _ => false

/-! # Theorems

One theorem per claim (with a witness when the theorem has hypotheses, and
a counterexample theorem when the claim as frozen fails on the code). -/

/-! ## C9 — abort -/

/-- C9 counterexample: with ample gas, calling `abort` with a line number
but no file name hits the `unreachable!()` panic of the location `match`
instead of returning a deterministic error, so not every combination of the
four optional arguments yields the single formatted deterministic error. -/
theorem abort_line_without_file_panics :
    abort none none (some 1) none ⟨0, 1000000⟩ = AbortOutcome.panicUnreachable := by
  decide

/-- C9 (amended): given sufficient gas, for every combination of the four
optional arguments in which a line number is only supplied together with a
file name and a column number only together with a line number, `abort`
returns the single deterministic error formatting the supplied values; it
has no other outcome.  (The remaining combinations hit the
`unreachable!()` panic.) -/
theorem abort_returns_deterministic_error (m f : Option String) (l c : Option Nat)
    (g : GasCounter) (hgas : g.used + DEFAULT_BASE_COST ≤ g.budget)
    (hl : l.isSome = true → f.isSome = true)
    (hc : c.isSome = true → l.isSome = true) :
    (abort m f l c g).isDetErr = true := by
  unfold abort consume_host_fn
  rw [if_neg (by omega)]
  cases f with
  | none =>
    cases l with
    | none =>
      cases c with
      | none => rfl
      | some cv => simp at hc
    | some lv => simp at hl
  | some fv =>
    cases l with
    | none =>
      cases c with
      | none => rfl
      | some cv => simp at hc
    | some lv =>
      cases c with
      | none => rfl
      | some cv => rfl

/-- C9 witness: the amended theorem applied at concrete arguments. -/
theorem abort_returns_deterministic_error_witness :
    (0 + DEFAULT_BASE_COST ≤ 1000)
      ∧ (abort (some "err") (some "mapping.ts") (some 7) (some 3) ⟨0, 1000⟩).isDetErr = true :=
  ⟨by decide,
    abort_returns_deterministic_error (some "err") (some "mapping.ts") (some 7) (some 3)
      ⟨0, 1000⟩ (by decide) (fun _ => by decide) (fun _ => by decide)⟩

/-! ## C5 — big-integer / big-decimal division and modulo -/

/-- C5: for all operand pairs, division and modulo by zero always fail (the
result type carries the `Deterministic` classification); for non-zero
divisors and a sufficient gas budget they always succeed, and the
big-integer results satisfy the Euclidean identity
`(x / y) * y + (x % y) = x` for truncated division. -/
theorem big_int_div_mod_spec (x y : Int) (dx dy : Rat) (g : GasCounter)
    (hy : y ≠ 0) (hdy : dy ≠ 0)
    (hgas : g.used + intMulGasCost x y ≤ g.budget)
    (hdgas : g.used + decimalMulGasCost ≤ g.budget) :
    exceptIsOk (big_int_divided_by x 0 g) = false
    ∧ exceptIsOk (big_int_mod x 0 g) = false
    ∧ exceptIsOk (big_decimal_divided_by dx 0 g) = false
    ∧ big_int_divided_by x y g
        = Except.ok (⟨g.used + intMulGasCost x y, g.budget⟩, x.tdiv y)
    ∧ big_int_mod x y g
        = Except.ok (⟨g.used + intMulGasCost x y, g.budget⟩, x.tmod y)
    ∧ big_decimal_divided_by dx dy g
        = Except.ok (⟨g.used + decimalMulGasCost, g.budget⟩, dx / dy)
    ∧ x.tdiv y * y + x.tmod y = x := by
  refine ⟨?_, ?_, ?_, ?_, ?_, ?_, Int.tdiv_add_tmod' x y⟩
  · unfold big_int_divided_by consume_host_fn
    by_cases hb : g.budget < g.used + intMulGasCost x 0
    · rw [if_pos hb]
      rfl
    · rw [if_neg hb]
      simp [exceptIsOk]
  · unfold big_int_mod consume_host_fn
    by_cases hb : g.budget < g.used + intMulGasCost x 0
    · rw [if_pos hb]
      rfl
    · rw [if_neg hb]
      simp [exceptIsOk]
  · unfold big_decimal_divided_by consume_host_fn
    by_cases hb : g.budget < g.used + decimalMulGasCost
    · rw [if_pos hb]
      rfl
    · rw [if_neg hb]
      simp [exceptIsOk]
  · unfold big_int_divided_by consume_host_fn
    rw [if_neg (by omega)]
    simp [hy]
  · unfold big_int_mod consume_host_fn
    rw [if_neg (by omega)]
    simp [hy]
  · unfold big_decimal_divided_by consume_host_fn
    rw [if_neg (by omega)]
    simp [hdy]

/-- C5 witness: the theorem applied at `x = 7`, `y = 3`,
`dx = 1/2`, `dy = 1/4` with an ample budget. -/
theorem big_int_div_mod_spec_witness :
    (3 : Int) ≠ 0 ∧ (1/4 : Rat) ≠ 0
      ∧ exceptIsOk (big_int_divided_by 7 3 ⟨0, 1000000⟩) = true
      ∧ exceptIsOk (big_int_mod 7 0 ⟨0, 1000000⟩) = false := by
  have h := big_int_div_mod_spec 7 3 (1/2) (1/4) ⟨0, 1000000⟩ (by decide) (by norm_num)
    (by decide) (by decide)
  refine ⟨by decide, by norm_num, ?_, h.2.1⟩
  rw [h.2.2.2.1]
  rfl

/-! ## C8 — string_to_h160 -/

/-- Stripping the leading `0x` matches does not change a string of hex
characters, since the hex alphabet does not contain `x`. -/
theorem trimStart0x_of_hex (s : List Char) (h : ∀ c ∈ s, (hexCharVal c).isSome) :
    trimStart0x s = s := by
  cases s with
  | nil => rfl
  | cons a t =>
    cases t with
    | nil => rfl
    | cons b r =>
      unfold trimStart0x
      rw [if_neg]
      intro hab
      have hb := h b (by simp)
      rw [hab.2] at hb
      simp [hexCharVal] at hb

/-- Decoding a string of hex characters never fails, from any
accumulator. -/
theorem hexDecodeFrom_isSome (cs : List Char) :
    ∀ acc : Nat, (∀ c ∈ cs, (hexCharVal c).isSome) →
      (hexDecodeFrom acc cs).isSome = true := by
  induction cs with
  | nil => intro acc _; rfl
  | cons c rest ih =>
    intro acc h
    have hc := h c (by simp)
    unfold hexDecodeFrom
    obtain ⟨v, hv⟩ := Option.isSome_iff_exists.mp hc
    rw [hv]
    exact ih (acc * 16 + v) (fun d hd => h d (by simp [hd]))

/-- C8 (amended): `string_to_h160` accepts a 40-hex-character string both
with and without one `0x` prefix, producing the same address, and rejects
every input whose remainder after stripping all leading `0x` occurrences is
not 40 hex characters.  (The Rust `trim_start_matches("0x")` removes every
leading occurrence of `0x`, not just one optional prefix.) -/
theorem string_to_h160_spec (s l : List Char)
    (hlen : s.length = 40) (hhex : ∀ c ∈ s, (hexCharVal c).isSome) :
    (string_to_h160 ('0' :: 'x' :: s) = string_to_h160 s
      ∧ exceptIsOk (string_to_h160 s) = true)
    ∧ (¬ ((trimStart0x l).length = 40 ∧ ∀ c ∈ trimStart0x l, (hexCharVal c).isSome) →
        exceptIsOk (string_to_h160 l) = false) := by
  have hts : trimStart0x s = s := trimStart0x_of_hex s hhex
  have hts2 : trimStart0x ('0' :: 'x' :: s) = trimStart0x s := by
    show (if ('0' : Char) = '0' ∧ ('x' : Char) = 'x' then trimStart0x s
      else '0' :: 'x' :: s) = trimStart0x s
    rw [if_pos ⟨rfl, rfl⟩]
  refine ⟨⟨?_, ?_⟩, ?_⟩
  · unfold string_to_h160
    rw [hts2]
  · unfold string_to_h160 h160FromStr
    rw [hts, if_pos ⟨hlen, hhex⟩]
    obtain ⟨n, hn⟩ := Option.isSome_iff_exists.mp (hexDecodeFrom_isSome s 0 hhex)
    unfold hexDecode
    rw [hn]
    rfl
  · intro hbad
    unfold string_to_h160 h160FromStr
    rw [if_neg hbad]
    rfl

/-- C8 witness: the amended theorem applied at the 40-zero address string
and at the non-hex input `z`. -/
theorem string_to_h160_spec_witness :
    (List.replicate 40 '0').length = 40
      ∧ exceptIsOk (string_to_h160 (List.replicate 40 '0')) = true
      ∧ exceptIsOk (string_to_h160 ['z']) = false := by
  have h := string_to_h160_spec (List.replicate 40 '0') ['z'] (by decide) (by decide)
  exact ⟨by decide, h.1.2, h.2 (by decide)⟩

/-- C8 counterexample: the input `0x0x` followed by forty `0` characters is
not 40 hex characters after removing one optional `0x` prefix (the
remainder still has 42 characters), yet `string_to_h160` accepts it,
because `trim_start_matches("0x")` strips the `0x` pattern repeatedly. -/
theorem string_to_h160_double_prefix_cex :
    string_to_h160 ('0' :: 'x' :: '0' :: 'x' :: List.replicate 40 '0') = Except.ok 0
    ∧ ('0' :: 'x' :: List.replicate 40 '0').length ≠ 40 := by
  constructor
  · rfl
  · decide

/-! ## C1 — ethereum_call classification -/

/-- C1 counterexample: with ample gas, a call naming an ABI contract that is
not attached to the data source fails classified `Unknown` (through
`From<anyhow::Error> for EthereumCallError`), not `Deterministic` as the
claim states; the function-resolution failure behaves the same way. -/
theorem ethereum_call_missing_abi_cex :
    ethereum_call ⟨"sg", "ds", "ethereum/mainnet", []⟩ (fun _ => Except.ok []) 0
        ⟨"Token", none, "decimals", 0, []⟩ ⟨0, 100000⟩
      = Except.error (EthereumCallError.unknown
          ("Could not find ABI for contract \"Token\", try adding it to the " ++
            "\x27abis\x27 section of the subgraph manifest"))
    ∧ ethereum_call ⟨"sg", "ds", "ethereum/mainnet",
          [⟨"Token", [⟨"decimals", "decimals()"⟩]⟩]⟩ (fun _ => Except.ok []) 0
        ⟨"Token", none, "totalSupply", 0, []⟩ ⟨0, 100000⟩
      = Except.error (EthereumCallError.unknown
          "Unknown function \"Token::totalSupply\" called from WASM runtime") := by
  constructor
  · rfl
  · rfl

/-- C1 (amended): after the gas charge, a contract-level revert returns
`Ok(None)`; an adapter `Web3Error` or `Timeout` returns a
`PossibleReorg`-classified error; any other adapter error returns an
`Unknown`-classified error; and a failure to resolve the named ABI contract
or the named function returns an error classified `Unknown` (not
`Deterministic`: the resolution error is converted through
`From<anyhow::Error>`).  The three error classifications are pairwise
distinct. -/
theorem ethereum_call_classification (h : HostExports)
    (adapter : EthereumContractCall → Except EthereumContractCallError (List Nat))
    (blockPtr : Nat) (call : UnresolvedContractCall) (g : GasCounter)
    (contract : Contract) (f : AbiFunction) (tokens : List Nat)
    (reason msg s1 s2 s3 : String)
    (hgas : g.used + ethereum_call_cost ≤ g.budget) :
    (resolveContract h.abis call.contractName = Except.ok contract →
      resolveFunction contract call = Except.ok f →
      adapter ⟨call.contractAddress, blockPtr, f, call.functionArgs⟩ = Except.ok tokens →
      ethereum_call h adapter blockPtr call g
        = Except.ok (⟨g.used + ethereum_call_cost, g.budget⟩, some tokens))
    ∧ (resolveContract h.abis call.contractName = Except.ok contract →
      resolveFunction contract call = Except.ok f →
      adapter ⟨call.contractAddress, blockPtr, f, call.functionArgs⟩
          = Except.error (EthereumContractCallError.revert reason) →
      ethereum_call h adapter blockPtr call g
        = Except.ok (⟨g.used + ethereum_call_cost, g.budget⟩, none))
    ∧ (resolveContract h.abis call.contractName = Except.ok contract →
      resolveFunction contract call = Except.ok f →
      adapter ⟨call.contractAddress, blockPtr, f, call.functionArgs⟩
          = Except.error (EthereumContractCallError.web3Error msg) →
      ethereum_call h adapter blockPtr call g
        = Except.error (EthereumCallError.possibleReorg
            ("Ethereum node returned an error when calling function \"" ++
              call.functionName ++ "\" of contract \"" ++ call.contractName ++
              "\": " ++ msg)))
    ∧ (resolveContract h.abis call.contractName = Except.ok contract →
      resolveFunction contract call = Except.ok f →
      adapter ⟨call.contractAddress, blockPtr, f, call.functionArgs⟩
          = Except.error EthereumContractCallError.timeout →
      ethereum_call h adapter blockPtr call g
        = Except.error (EthereumCallError.possibleReorg
            ("Ethereum node did not respond when calling function \"" ++
              call.functionName ++ "\" of contract \"" ++ call.contractName ++ "\"")))
    ∧ (resolveContract h.abis call.contractName = Except.ok contract →
      resolveFunction contract call = Except.ok f →
      adapter ⟨call.contractAddress, blockPtr, f, call.functionArgs⟩
          = Except.error (EthereumContractCallError.other msg) →
      ethereum_call h adapter blockPtr call g
        = Except.error (EthereumCallError.unknown
            ("Failed to call function \"" ++ call.functionName ++
              "\" of contract \"" ++ call.contractName ++ "\": " ++ msg)))
    ∧ (resolveContract h.abis call.contractName = Except.error msg →
      ethereum_call h adapter blockPtr call g
        = Except.error (EthereumCallError.unknown msg))
    ∧ (resolveContract h.abis call.contractName = Except.ok contract →
      resolveFunction contract call = Except.error msg →
      ethereum_call h adapter blockPtr call g
        = Except.error (EthereumCallError.unknown msg))
    ∧ EthereumCallError.possibleReorg s1 ≠ EthereumCallError.unknown s2
    ∧ EthereumCallError.possibleReorg s1 ≠ EthereumCallError.deterministicHostError s3
    ∧ EthereumCallError.unknown s2 ≠ EthereumCallError.deterministicHostError s3 := by
  have hok : consume_host_fn g ethereum_call_cost
      = Except.ok ⟨g.used + ethereum_call_cost, g.budget⟩ := by
    unfold consume_host_fn
    rw [if_neg (by omega)]
  refine ⟨?_, ?_, ?_, ?_, ?_, ?_, ?_, ?_, ?_, ?_⟩
  · intro h1 h2 h3
    simp only [ethereum_call, hok, h1, h2, h3]
  · intro h1 h2 h3
    simp only [ethereum_call, hok, h1, h2, h3]
  · intro h1 h2 h3
    simp only [ethereum_call, hok, h1, h2, h3]
  · intro h1 h2 h3
    simp only [ethereum_call, hok, h1, h2, h3]
  · intro h1 h2 h3
    simp only [ethereum_call, hok, h1, h2, h3]
  · intro h1
    simp only [ethereum_call, hok, h1]
    rfl
  · intro h1 h2
    simp only [ethereum_call, hok, h1, h2]
    rfl
  · intro hcontra
    exact EthereumCallError.noConfusion hcontra
  · intro hcontra
    exact EthereumCallError.noConfusion hcontra
  · intro hcontra
    exact EthereumCallError.noConfusion hcontra

/-- C1 witness: the amended theorem applied at a one-contract ABI set, once
with a timeout adapter and once with a reverting adapter. -/
theorem ethereum_call_classification_witness :
    ethereum_call ⟨"sg", "ds", "ethereum/mainnet",
          [⟨"Token", [⟨"decimals", "decimals()"⟩]⟩]⟩
        (fun _ => Except.error EthereumContractCallError.timeout) 5
        ⟨"Token", none, "decimals", 9, []⟩ ⟨0, 100000⟩
      = Except.error (EthereumCallError.possibleReorg
          "Ethereum node did not respond when calling function \"decimals\" of contract \"Token\"")
    ∧ ethereum_call ⟨"sg", "ds", "ethereum/mainnet",
          [⟨"Token", [⟨"decimals", "decimals()"⟩]⟩]⟩
        (fun _ => Except.error (EthereumContractCallError.revert "out of range")) 5
        ⟨"Token", none, "decimals", 9, []⟩ ⟨0, 100000⟩
      = Except.ok (⟨1000, 100000⟩, none) := by
  constructor
  · exact (ethereum_call_classification ⟨"sg", "ds", "ethereum/mainnet",
        [⟨"Token", [⟨"decimals", "decimals()"⟩]⟩]⟩
      (fun _ => Except.error EthereumContractCallError.timeout) 5
      ⟨"Token", none, "decimals", 9, []⟩ ⟨0, 100000⟩
      [⟨"decimals", "decimals()"⟩] ⟨"decimals", "decimals()"⟩ [] "r" "m" "a" "b" "c"
      (by decide)).2.2.2.1 rfl rfl rfl
  · exact (ethereum_call_classification ⟨"sg", "ds", "ethereum/mainnet",
        [⟨"Token", [⟨"decimals", "decimals()"⟩]⟩]⟩
      (fun _ => Except.error (EthereumContractCallError.revert "out of range")) 5
      ⟨"Token", none, "decimals", 9, []⟩ ⟨0, 100000⟩
      [⟨"decimals", "decimals()"⟩] ⟨"decimals", "decimals()"⟩ [] "out of range" "m" "a" "b" "c"
      (by decide)).2.1 rfl rfl rfl

/-! ## C6 — big_int_to_hex -/

/-- Zero has no base-256 digits, at any fuel. -/
theorem natToBytesBEGo_zero (fuel : Nat) : natToBytesBEGo fuel 0 = [] := by
  cases fuel <;> rfl

/-- The fuel does not matter as long as it is at least the number. -/
theorem natToBytesBEGo_congr (n : Nat) :
    ∀ f1 f2, n ≤ f1 → n ≤ f2 → natToBytesBEGo f1 n = natToBytesBEGo f2 n := by
  induction n using Nat.strong_induction_on with
  | _ n ih =>
    intro f1 f2 h1 h2
    cases n with
    | zero => rw [natToBytesBEGo_zero, natToBytesBEGo_zero]
    | succ m =>
      cases f1 with
      | zero => omega
      | succ f1 =>
        cases f2 with
        | zero => omega
        | succ f2 =>
          show natToBytesBEGo f1 ((m + 1) / 256) ++ [(m + 1) % 256]
            = natToBytesBEGo f2 ((m + 1) / 256) ++ [(m + 1) % 256]
          have hd : (m + 1) / 256 < m + 1 := Nat.div_lt_self (Nat.succ_pos m) (by omega)
          rw [ih ((m + 1) / 256) hd f1 f2 (by omega) (by omega)]

/-- The defining recurrence of the big-endian byte string. -/
theorem natToBytesBE_rec (n : Nat) (hn : n ≠ 0) :
    natToBytesBE n = natToBytesBE (n / 256) ++ [n % 256] := by
  cases n with
  | zero => exact absurd rfl hn
  | succ m =>
    show natToBytesBEGo m ((m + 1) / 256) ++ [(m + 1) % 256]
      = natToBytesBEGo ((m + 1) / 256) ((m + 1) / 256) ++ [(m + 1) % 256]
    have hd : (m + 1) / 256 < m + 1 := Nat.div_lt_self (Nat.succ_pos m) (by omega)
    rw [natToBytesBEGo_congr ((m + 1) / 256) m ((m + 1) / 256) (by omega) (le_refl _)]

/-- Every byte of the big-endian byte string is below 256. -/
theorem natToBytesBE_bytes_lt (n : Nat) : ∀ b ∈ natToBytesBE n, b < 256 := by
  induction n using Nat.strong_induction_on with
  | _ n ih =>
    intro b hb
    cases hzero : n with
    | zero =>
      subst hzero
      simp [natToBytesBE, natToBytesBEGo] at hb
    | succ m =>
      subst hzero
      rw [natToBytesBE_rec (m + 1) (by omega)] at hb
      rcases List.mem_append.mp hb with hmem | hmem
      · exact ih ((m + 1) / 256) (Nat.div_lt_self (Nat.succ_pos m) (by omega)) b hmem
      · simp at hmem
        subst hmem
        exact Nat.mod_lt _ (by omega)

/-- Encoding then decoding a hex digit is the identity for nibbles. -/
theorem hexCharVal_hexDigitChar (d : Nat) (hd : d < 16) :
    hexCharVal (hexDigitChar d) = some d := by
  interval_cases d <;> rfl

/-- Decoding the two hex digits of one byte extends the accumulator by one
base-256 digit. -/
theorem hexDecodeFrom_byteToHex (acc b : Nat) (hb : b < 256) :
    hexDecodeFrom acc (byteToHex b) = some (acc * 256 + b) := by
  unfold byteToHex hexDecodeFrom
  rw [hexCharVal_hexDigitChar (b / 16) (by omega)]
  unfold hexDecodeFrom
  rw [hexCharVal_hexDigitChar (b % 16) (by omega)]
  unfold hexDecodeFrom
  have hdm := Nat.div_add_mod b 16
  congr 1
  omega

/-- Hex decoding distributes over list append through the accumulator. -/
theorem hexDecodeFrom_append (xs ys : List Char) :
    ∀ acc, hexDecodeFrom acc (xs ++ ys)
      = (hexDecodeFrom acc xs).bind (fun a => hexDecodeFrom a ys) := by
  induction xs with
  | nil => intro acc; rfl
  | cons c cs ih =>
    intro acc
    show (match hexCharVal c with
        | some v => hexDecodeFrom (acc * 16 + v) (cs ++ ys)
        | none => none)
      = (match hexCharVal c with
        | some v => hexDecodeFrom (acc * 16 + v) cs
        | none => none).bind (fun a => hexDecodeFrom a ys)
    cases hexCharVal c with
    | none => rfl
    | some v => exact ih (acc * 16 + v)

/-- Decoding the hex encoding of the byte string of `n` recovers `n`, from
any accumulator. -/
theorem hexDecodeFrom_natToBytesBE (n : Nat) :
    ∀ acc, hexDecodeFrom acc (hexOfBytes (natToBytesBE n))
      = some (acc * 256 ^ (natToBytesBE n).length + n) := by
  induction n using Nat.strong_induction_on with
  | _ n ih =>
    intro acc
    cases hzero : n with
    | zero =>
      subst hzero
      simp [natToBytesBE, natToBytesBEGo, hexOfBytes, hexDecodeFrom]
    | succ m =>
      subst hzero
      have hd : (m + 1) / 256 < m + 1 := Nat.div_lt_self (Nat.succ_pos m) (by omega)
      rw [natToBytesBE_rec (m + 1) (by omega)]
      unfold hexOfBytes
      rw [List.flatMap_append]
      rw [hexDecodeFrom_append]
      have ihq := ih ((m + 1) / 256) hd acc
      unfold hexOfBytes at ihq
      rw [ihq]
      show hexDecodeFrom _ (List.flatMap [(m + 1) % 256] byteToHex) = _
      have : List.flatMap [(m + 1) % 256] byteToHex = byteToHex ((m + 1) % 256) := by
        simp
      rw [this]
      rw [hexDecodeFrom_byteToHex _ _ (Nat.mod_lt _ (by omega))]
      rw [List.length_append]
      congr 1
      have hdm := Nat.div_add_mod (m + 1) 256
      generalize (natToBytesBE ((m + 1) / 256)).length = L
      rw [List.length_singleton, Nat.pow_succ, ← Nat.mul_assoc]
      generalize acc * 256 ^ L = A
      omega

/-- Stripping leading zero characters does not change the decoded value
when starting from a zero accumulator. -/
theorem hexDecodeFrom_trimLeadingZeros (cs : List Char) :
    hexDecodeFrom 0 (trimLeadingZeros cs) = hexDecodeFrom 0 cs := by
  induction cs with
  | nil => rfl
  | cons c rest ih =>
    unfold trimLeadingZeros
    by_cases hc : c = '0'
    · rw [if_pos hc, ih]
      subst hc
      rfl
    · rw [if_neg hc]

/-- After stripping, the head is never a zero character. -/
theorem trimLeadingZeros_head (cs : List Char) :
    ∀ c, (trimLeadingZeros cs).head? = some c → c ≠ '0' := by
  induction cs with
  | nil => intro c hcon; simp [trimLeadingZeros] at hcon
  | cons d rest ih =>
    intro c hc
    unfold trimLeadingZeros at hc
    by_cases hd : d = '0'
    · rw [if_pos hd] at hc
      exact ih c hc
    · rw [if_neg hd] at hc
      simp at hc
      subst hc
      exact hd

/-- C6 counterexample: the hex encoding of a negative big integer drops the
sign (the source encodes the magnitude bytes of `to_bytes_be`), so the
produced string decodes to the absolute value, not to `n`: `-1` encodes as
`0x1`, which decodes to `1 ≠ -1`. -/
theorem big_int_to_hex_negative_cex :
    big_int_to_hex (-1) ⟨0, 1000⟩ = Except.ok (⟨101, 1000⟩, "0x1")
    ∧ hexDecode ['1'] = some 1
    ∧ ((1 : Int) ≠ -1) := by
  refine ⟨?_, rfl, by decide⟩
  have h1 : natToBytesBE 1 = [1] := rfl
  simp [big_int_to_hex, consume_host_fn, intGasCost, h1, hexOfBytes, byteToHex,
    hexDigitChar, trimLeadingZeros]
  rfl

/-- C6 (amended): zero encodes as `0x0`; a non-zero `n` encodes as `0x`
followed by the hex digits of the magnitude of `n` with leading zero hex
digits stripped, the output has no leading zero hex digit, and decoding the
digits reconstructs the absolute value of `n` (hence `n` itself exactly
when `n` is positive). -/
theorem big_int_to_hex_spec (n : Int) (g : GasCounter) (hn : n ≠ 0)
    (hgas : g.used + intGasCost n ≤ g.budget) :
    big_int_to_hex 0 g = Except.ok (⟨g.used + intGasCost 0, g.budget⟩, "0x0")
    ∧ big_int_to_hex n g
        = Except.ok (⟨g.used + intGasCost n, g.budget⟩,
            "0x" ++ String.mk (trimLeadingZeros (hexOfBytes (natToBytesBE n.natAbs))))
    ∧ hexDecode (trimLeadingZeros (hexOfBytes (natToBytesBE n.natAbs))) = some n.natAbs
    ∧ (trimLeadingZeros (hexOfBytes (natToBytesBE n.natAbs))).head? ≠ some '0' := by
  refine ⟨?_, ?_, ?_, ?_⟩
  · unfold big_int_to_hex consume_host_fn
    rw [if_neg (by unfold intGasCost at hgas ⊢; omega)]
    rfl
  · unfold big_int_to_hex consume_host_fn
    rw [if_neg (by omega)]
    simp [hn]
  · unfold hexDecode
    rw [hexDecodeFrom_trimLeadingZeros]
    rw [hexDecodeFrom_natToBytesBE n.natAbs 0]
    simp
  · intro hcontra
    exact trimLeadingZeros_head _ '0' hcontra rfl

/-- C6 witness: the amended theorem applied at `n = 255`, whose encoding is
`0xff`. -/
theorem big_int_to_hex_spec_witness :
    (255 : Int) ≠ 0
    ∧ big_int_to_hex 255 ⟨0, 1000⟩ = Except.ok (⟨355, 1000⟩, "0xff")
    ∧ hexDecode ['f', 'f'] = some 255 := by
  have h := big_int_to_hex_spec 255 ⟨0, 1000⟩ (by decide) (by decide)
  refine ⟨by decide, ?_, rfl⟩
  have h255 : natToBytesBE (Int.natAbs 255) = [255] := rfl
  have := h.2.1
  rw [h255] at this
  simpa [hexOfBytes, byteToHex, hexDigitChar, trimLeadingZeros, intGasCost] using this

/-! ## store_set helper lemmas -/

/-- The merged view an entity-cache read returns right after a `set`: the
written entity layered over the previous store state. -/
def mergedView (store : EntityKey → Option Entity) (key : EntityKey) (e : Entity) : Entity :=
  match store key with
  | some base => mergeEntity base e
  | none => e

/-- Reading a key right after setting it returns the merged view. -/
theorem cacheGet_cacheSet (cache : EntityCache) (store : EntityKey → Option Entity)
    (key : EntityKey) (e : Entity) :
    cacheGet (cacheSet cache key e) store key = some (mergedView store key e) := by
  unfold cacheGet cacheSet cacheLookup mergedView
  rw [if_pos rfl]
  cases store key <;> rfl

/-- When the data map has no `id` field or carries the matching string id,
`store_set` proceeds past the conflict check with the id field injected. -/
theorem store_set_no_conflict (h : HostExports) (store : EntityKey → Option Entity)
    (schemaRes : Except AnyhowError String) (validate : String → EntityKey → Entity → Bool)
    (poi : ProofOfIndexing) (cache : EntityCache) (entityType entityId : String)
    (data : Entity) (gas : GasCounter)
    (hid : getField data "id" = none ∨ getField data "id" = some (Value.str entityId)) :
    store_set h store schemaRes validate poi cache entityType entityId data gas
      = store_set_after_id h store schemaRes validate
          (poiWrite poi h.causalityRegion (PoiEvent.setEntity entityType entityId data))
          cache entityType entityId (("id", Value.str entityId) :: removeField data "id") gas := by
  rcases hid with hid | hid
  · simp [store_set, insertField, hid]
  · have hbeq : Value.beq (Value.str entityId) (Value.str entityId) = true := by
      simp [Value.beq]
    simp [store_set, insertField, hid, hbeq]

/-! ## C2 — store_set with a conflicting id -/

/-- C2 counterexample: a `store_set` whose field map carries
`id = "X"` against entity id `"Y"` does fail before touching the cache, but
the error is a bare `anyhow` error whose classification through the host
boundary (`From<anyhow::Error> for HostExportError` followed by
`IntoTrap::determinism_level`) is `Unimplemented`, not `Deterministic`. -/
theorem store_set_conflicting_id_cex :
    (store_set ⟨"sg", "ds", "ethereum/mainnet", []⟩ (fun _ => none) (Except.ok "schema")
        (fun _ _ _ => true) none [] "User" "Y" [("id", Value.str "X")] ⟨0, 100000⟩).res
      = Except.error (conflictMsg "User" (Value.str "X") "Y")
    ∧ (store_set ⟨"sg", "ds", "ethereum/mainnet", []⟩ (fun _ => none) (Except.ok "schema")
        (fun _ _ _ => true) none [] "User" "Y" [("id", Value.str "X")] ⟨0, 100000⟩).cache
      = []
    ∧ HostExportError.determinismLevel
        (HostExportError.fromAnyhow (conflictMsg "User" (Value.str "X") "Y"))
      ≠ DeterminismLevel.deterministic := by
  refine ⟨?_, ?_, by decide⟩
  · rfl
  · rfl

/-- C2 (amended): a `store_set` whose field map carries an `id` string
different from the call entity id fails before the gas charge and before
any cache mutation, with an error that the host boundary classifies as
`Unknown`/non-deterministic (`Unimplemented` determinism level), not as a
deterministic error. -/
theorem store_set_conflicting_id_spec (h : HostExports) (store : EntityKey → Option Entity)
    (schemaRes : Except AnyhowError String) (validate : String → EntityKey → Entity → Bool)
    (poi : ProofOfIndexing) (cache : EntityCache) (entityType entityId : String)
    (data : Entity) (gas : GasCounter) (sv : String)
    (hid : getField data "id" = some (Value.str sv)) (hne : sv ≠ entityId) :
    (store_set h store schemaRes validate poi cache entityType entityId data gas).res
      = Except.error (conflictMsg entityType (Value.str sv) entityId)
    ∧ (store_set h store schemaRes validate poi cache entityType entityId data gas).cache
      = cache
    ∧ (store_set h store schemaRes validate poi cache entityType entityId data gas).gas
      = gas
    ∧ HostExportError.determinismLevel
        (HostExportError.fromAnyhow (conflictMsg entityType (Value.str sv) entityId))
      = DeterminismLevel.unimplemented := by
  have hbeq : Value.beq (Value.str sv) (Value.str entityId) = false := by
    simp [Value.beq]
    exact hne
  refine ⟨?_, ?_, ?_, rfl⟩ <;> simp [store_set, insertField, hid, hbeq]

/-- C2 witness: the amended theorem applied at a concrete conflicting
call. -/
theorem store_set_conflicting_id_spec_witness :
    getField [("id", Value.str "A"), ("n", Value.int 3)] "id" = some (Value.str "A")
    ∧ (store_set ⟨"sg", "ds", "r", []⟩ (fun _ => none) (Except.ok "s") (fun _ _ _ => false)
        (some []) [(⟨"sg", "T", "k"⟩, CacheOp.removed)] "T" "B"
        [("id", Value.str "A"), ("n", Value.int 3)] ⟨7, 50⟩).cache
      = [(⟨"sg", "T", "k"⟩, CacheOp.removed)] := by
  have h := store_set_conflicting_id_spec ⟨"sg", "ds", "r", []⟩ (fun _ => none)
    (Except.ok "s") (fun _ _ _ => false) (some []) [(⟨"sg", "T", "k"⟩, CacheOp.removed)]
    "T" "B" [("id", Value.str "A"), ("n", Value.int 3)] ⟨7, 50⟩ "A" (by rfl)
    (by decide)
  exact ⟨rfl, h.2.1⟩

/-! ## C3 — gas exhaustion versus side effects -/

/-- C3 counterexample: not every listed failure is preceded by the gas
charge.  A `store_set` with a conflicting `id` returns its error with the
gas counter untouched, although the operation declares a positive gas
cost: the conflict check precedes `consume_host_fn` in the source. -/
theorem store_set_conflict_before_gas_cex :
    (store_set ⟨"sg", "ds", "r", []⟩ (fun _ => none) (Except.ok "s") (fun _ _ _ => true)
        none [] "User" "Y" [("id", Value.str "X")] ⟨0, 100000⟩).gas = ⟨0, 100000⟩
    ∧ (store_set ⟨"sg", "ds", "r", []⟩ (fun _ => none) (Except.ok "s") (fun _ _ _ => true)
        none [] "User" "Y" [("id", Value.str "X")] ⟨0, 100000⟩).res
      = Except.error (conflictMsg "User" (Value.str "X") "Y")
    ∧ 0 < store_set_cost ⟨"sg", "User", "Y"⟩ [("id", Value.str "Y")] := by
  refine ⟨rfl, rfl, by decide⟩

/-- C3 (amended): when the gas charge of a `store_set` (with a passing id
check) or of a `store_remove` exceeds the budget, the operation returns the
budget-exceeded error and the entity cache, the gas counter and (for
`store_set`) the underlying store are untouched.  However, not every
operation consumes its declared gas before each of its listed failures:
`store_set` performs its conflicting-id check before the gas charge. -/
theorem store_gas_exhaustion_spec (h : HostExports) (store : EntityKey → Option Entity)
    (schemaRes : Except AnyhowError String) (validate : String → EntityKey → Entity → Bool)
    (poi : ProofOfIndexing) (cache : EntityCache) (entityType entityId : String)
    (data : Entity) (gas : GasCounter)
    (hid : getField data "id" = none ∨ getField data "id" = some (Value.str entityId)) :
    (gas.budget < gas.used + store_set_cost ⟨h.subgraphId, entityType, entityId⟩
        (("id", Value.str entityId) :: removeField data "id") →
      (store_set h store schemaRes validate poi cache entityType entityId data gas).res
        = Except.error "Gas limit exceeded"
      ∧ (store_set h store schemaRes validate poi cache entityType entityId data gas).cache
        = cache
      ∧ (store_set h store schemaRes validate poi cache entityType entityId data gas).gas
        = gas
      ∧ (store_set h store schemaRes validate poi cache entityType entityId data gas).dbReads
        = 0)
    ∧ (gas.budget < gas.used + store_remove_cost ⟨h.subgraphId, entityType, entityId⟩ →
      (store_remove h poi cache entityType entityId gas).res
        = Except.error (HostExportError.deterministic "Gas limit exceeded")
      ∧ (store_remove h poi cache entityType entityId gas).cache = cache
      ∧ (store_remove h poi cache entityType entityId gas).gas = gas) := by
  constructor
  · intro hover
    rw [store_set_no_conflict h store schemaRes validate poi cache entityType entityId
      data gas hid]
    simp [store_set_after_id, consume_host_fn, hover]
  · intro hover
    simp [store_remove, consume_host_fn, hover]

/-- C3 witness: the amended theorem applied at a tiny budget. -/
theorem store_gas_exhaustion_spec_witness :
    ((10 : Nat) < 0 + store_set_cost ⟨"sg", "T", "k"⟩ [("id", Value.str "k")])
    ∧ (store_set ⟨"sg", "ds", "r", []⟩ (fun _ => none) (Except.ok "s") (fun _ _ _ => true)
        (some []) [] "T" "k" [] ⟨0, 10⟩).cache = []
    ∧ (store_remove ⟨"sg", "ds", "r", []⟩ (some []) [] "T" "k" ⟨0, 10⟩).res
      = Except.error (HostExportError.deterministic "Gas limit exceeded") := by
  have h := store_gas_exhaustion_spec ⟨"sg", "ds", "r", []⟩ (fun _ => none) (Except.ok "s")
    (fun _ _ _ => true) (some []) [] "T" "k" [] ⟨0, 10⟩ (Or.inl rfl)
  exact ⟨by decide, (h.1 (by decide)).2.1, (h.2 (by decide)).1⟩

/-! ## C4 — two-phase validation of store_set -/

/-- C4: for a gas-successful `store_set` whose id check passes (and whose
schema is available), the underlying store is re-read exactly when the
optimistic validation of the just-written fields fails, and the call
returns success exactly when the optimistic validation passes or the
re-validation of the merged entity (cache layered over prior store state)
passes — i.e. a validation error is returned exactly when the
re-validation also fails. -/
theorem store_set_two_phase_validation (h : HostExports) (store : EntityKey → Option Entity)
    (schema : String) (validate : String → EntityKey → Entity → Bool)
    (poi : ProofOfIndexing) (cache : EntityCache) (entityType entityId : String)
    (data : Entity) (gas : GasCounter)
    (hid : getField data "id" = none ∨ getField data "id" = some (Value.str entityId))
    (hgas : gas.used + store_set_cost ⟨h.subgraphId, entityType, entityId⟩
        (("id", Value.str entityId) :: removeField data "id") ≤ gas.budget) :
    ((store_set h store (Except.ok schema) validate poi cache entityType entityId data gas).dbReads
      = if validate schema ⟨h.subgraphId, entityType, entityId⟩
            (("id", Value.str entityId) :: removeField data "id") = true then 0 else 1)
    ∧ ((store_set h store (Except.ok schema) validate poi cache entityType entityId data gas).res
        = Except.ok ()
      ↔ (validate schema ⟨h.subgraphId, entityType, entityId⟩
            (("id", Value.str entityId) :: removeField data "id") = true
        ∨ validate schema ⟨h.subgraphId, entityType, entityId⟩
            (mergedView store ⟨h.subgraphId, entityType, entityId⟩
              (("id", Value.str entityId) :: removeField data "id")) = true)) := by
  rw [store_set_no_conflict h store (Except.ok schema) validate poi cache entityType entityId
    data gas hid]
  have hno : ¬ (gas.budget < gas.used + store_set_cost ⟨h.subgraphId, entityType, entityId⟩
      (("id", Value.str entityId) :: removeField data "id")) := Nat.not_lt.mpr hgas
  by_cases hv1 : validate schema ⟨h.subgraphId, entityType, entityId⟩
      (("id", Value.str entityId) :: removeField data "id") = true
  · simp [store_set_after_id, consume_host_fn, hno, hv1]
  · by_cases hv2 : validate schema ⟨h.subgraphId, entityType, entityId⟩
        (mergedView store ⟨h.subgraphId, entityType, entityId⟩
          (("id", Value.str entityId) :: removeField data "id")) = true
    · simp [store_set_after_id, consume_host_fn, hno, hv1, hv2, cacheGet_cacheSet]
    · simp [store_set_after_id, consume_host_fn, hno, hv1, hv2, cacheGet_cacheSet]

/-- C4 witness: an entity that is invalid on its written fields alone but
valid once merged with the prior store entity triggers exactly one re-read
and succeeds. -/
theorem store_set_two_phase_validation_witness :
    (store_set ⟨"sg", "ds", "r", []⟩ (fun _ => some [("name", Value.str "x")])
        (Except.ok "s") (fun _ _ e => (getField e "name").isSome) (some []) [] "T" "k" []
        ⟨0, 100000⟩).res = Except.ok ()
    ∧ (store_set ⟨"sg", "ds", "r", []⟩ (fun _ => some [("name", Value.str "x")])
        (Except.ok "s") (fun _ _ e => (getField e "name").isSome) (some []) [] "T" "k" []
        ⟨0, 100000⟩).dbReads = 1 := by
  have h := store_set_two_phase_validation ⟨"sg", "ds", "r", []⟩
    (fun _ => some [("name", Value.str "x")]) "s" (fun _ _ e => (getField e "name").isSome)
    (some []) [] "T" "k" [] ⟨0, 100000⟩ (Or.inl rfl) (by decide)
  constructor
  · exact h.2.mpr (Or.inr (by rfl))
  · rw [h.1]
    rfl

/-! ## C10 — failed validation leaves the written entity in the cache -/

/-- C10: when both the optimistic validation and the re-validation of the
merged entity fail, `store_set` returns the validation error but the entity
written by the call remains in the entity cache: the cache mutation happens
before validation and is not rolled back. -/
theorem store_set_failed_validation_keeps_cache (h : HostExports)
    (store : EntityKey → Option Entity) (schema : String)
    (validate : String → EntityKey → Entity → Bool) (poi : ProofOfIndexing)
    (cache : EntityCache) (entityType entityId : String) (data : Entity) (gas : GasCounter)
    (hid : getField data "id" = none ∨ getField data "id" = some (Value.str entityId))
    (hgas : gas.used + store_set_cost ⟨h.subgraphId, entityType, entityId⟩
        (("id", Value.str entityId) :: removeField data "id") ≤ gas.budget)
    (hv1 : validate schema ⟨h.subgraphId, entityType, entityId⟩
        (("id", Value.str entityId) :: removeField data "id") = false)
    (hv2 : validate schema ⟨h.subgraphId, entityType, entityId⟩
        (mergedView store ⟨h.subgraphId, entityType, entityId⟩
          (("id", Value.str entityId) :: removeField data "id")) = false) :
    (store_set h store (Except.ok schema) validate poi cache entityType entityId data gas).res
      = Except.error ("Entity validation failed for " ++ entityType)
    ∧ cacheLookup
        (store_set h store (Except.ok schema) validate poi cache entityType entityId data
          gas).cache ⟨h.subgraphId, entityType, entityId⟩
      = some (CacheOp.update (("id", Value.str entityId) :: removeField data "id")) := by
  rw [store_set_no_conflict h store (Except.ok schema) validate poi cache entityType entityId
    data gas hid]
  have hno : ¬ (gas.budget < gas.used + store_set_cost ⟨h.subgraphId, entityType, entityId⟩
      (("id", Value.str entityId) :: removeField data "id")) := Nat.not_lt.mpr hgas
  simp [store_set_after_id, consume_host_fn, hno, hv1, hv2, cacheGet_cacheSet]
  simp [cacheSet, cacheLookup]

/-- C10 witness: the theorem applied with an always-failing validator. -/
theorem store_set_failed_validation_keeps_cache_witness :
    (store_set ⟨"sg", "ds", "r", []⟩ (fun _ => none) (Except.ok "s") (fun _ _ _ => false)
        (some []) [] "T" "k" [] ⟨0, 100000⟩).res
      = Except.error ("Entity validation failed for " ++ "T")
    ∧ cacheLookup (store_set ⟨"sg", "ds", "r", []⟩ (fun _ => none) (Except.ok "s")
        (fun _ _ _ => false) (some []) [] "T" "k" [] ⟨0, 100000⟩).cache ⟨"sg", "T", "k"⟩
      = some (CacheOp.update [("id", Value.str "k")]) := by
  have h := store_set_failed_validation_keeps_cache ⟨"sg", "ds", "r", []⟩ (fun _ => none)
    "s" (fun _ _ _ => false) (some []) [] "T" "k" [] ⟨0, 100000⟩ (Or.inl rfl) (by decide)
    rfl rfl
  exact h

/-! ## C7 — ipfs_map -/

/-- A successful streaming loop produces one block state per record, in
stream order, each the result of the callback on that record. -/
theorem ipfsMapLoop_spec (cb : String → Value → Except AnyhowError BlockStateOut)
    (ud : Value) :
    ∀ (records : List JsonRecord) (sts : List BlockStateOut),
      ipfsMapLoop cb ud records = Except.ok sts →
      sts.length = records.length
      ∧ ∀ i (hi : i < records.length) (hl : i < sts.length),
          cb (records.get ⟨i, hi⟩).value ud = Except.ok (sts.get ⟨i, hl⟩) := by
  intro records
  induction records with
  | nil =>
    intro sts hok
    unfold ipfsMapLoop at hok
    simp at hok
    subst hok
    exact ⟨rfl, fun i hi => absurd hi (by simp)⟩
  | cons r rs ih =>
    intro sts hok
    unfold ipfsMapLoop at hok
    cases hcb : cb r.value ud with
    | error e => rw [hcb] at hok; simp at hok
    | ok st =>
      rw [hcb] at hok
      cases hrest : ipfsMapLoop cb ud rs with
      | error e => rw [hrest] at hok; simp at hok
      | ok sts2 =>
        rw [hrest] at hok
        simp at hok
        subst hok
        obtain ⟨hlen, hnth⟩ := ih sts2 hrest
        refine ⟨by simp [hlen], ?_⟩
        intro i hi hl
        cases i with
        | zero => simpa using hcb
        | succ j =>
          simp only [List.get_cons_succ]
          exact hnth j (by simpa using hi) (by simpa using hl)

/-- C7 counterexample: invoked with a flag list not containing `json`,
`ipfs_map` does fail before any content fetch, but the failure is the bare
`anyhow` error of `ensure!` (lines 466-469) in a function returning
`Result<_, anyhow::Error>`, which the host boundary
(`From<anyhow::Error> for HostExportError` followed by
`IntoTrap::determinism_level`) classifies `Unknown`/`Unimplemented` — not
deterministic as the claim states. -/
theorem ipfs_map_missing_flag_cex :
    (ipfs_map (Except.ok [⟨1, "a"⟩]) (fun _ _ => Except.ok []) "QmX" "cb" Value.null
        ["Json", "yaml"]).res = Except.error "Flags must contain \x27json\x27"
    ∧ (ipfs_map (Except.ok [⟨1, "a"⟩]) (fun _ _ => Except.ok []) "QmX" "cb" Value.null
        ["Json", "yaml"]).fetched = false
    ∧ HostExportError.determinismLevel
        (HostExportError.fromAnyhow "Flags must contain \x27json\x27")
      ≠ DeterminismLevel.deterministic := by
  refine ⟨rfl, rfl, by decide⟩

/-- C7 (amended): with the `json` flag, a stream of `N` records whose
callbacks all succeed produces exactly `N` block states in stream order
(one per record, each the callback result); without the flag, `ipfs_map`
fails before the content resolver is consulted, with a flag-usage error
that the host boundary classifies `Unknown`/non-deterministic
(`Unimplemented` determinism level), not deterministic. -/
theorem ipfs_map_spec (streamRes : Except AnyhowError (List JsonRecord))
    (callback : String → Value → Except AnyhowError BlockStateOut)
    (link callbackName : String) (userData : Value) (flags : List String)
    (records : List JsonRecord) (sts : List BlockStateOut) :
    ("json" ∈ flags → streamRes = Except.ok records →
      ipfsMapLoop callback userData records = Except.ok sts →
      (ipfs_map streamRes callback link callbackName userData flags).res = Except.ok sts
      ∧ (ipfs_map streamRes callback link callbackName userData flags).fetched = true
      ∧ sts.length = records.length
      ∧ ∀ i (hi : i < records.length) (hl : i < sts.length),
          callback (records.get ⟨i, hi⟩).value userData = Except.ok (sts.get ⟨i, hl⟩))
    ∧ ("json" ∉ flags →
      (ipfs_map streamRes callback link callbackName userData flags).res
        = Except.error "Flags must contain \x27json\x27"
      ∧ (ipfs_map streamRes callback link callbackName userData flags).fetched = false
      ∧ HostExportError.determinismLevel
          (HostExportError.fromAnyhow "Flags must contain \x27json\x27")
        = DeterminismLevel.unimplemented) := by
  constructor
  · intro hflag hstream hloop
    obtain ⟨hlen, hnth⟩ := ipfsMapLoop_spec callback userData records sts hloop
    refine ⟨?_, ?_, hlen, hnth⟩
    · simp [ipfs_map, hflag, hstream, hloop]
    · simp [ipfs_map, hflag, hstream, hloop]
  · intro hflag
    refine ⟨?_, ?_, rfl⟩
    · simp [ipfs_map, hflag]
    · simp [ipfs_map, hflag]

/-- C7 witness: the theorem applied to a two-record stream with the `json`
flag, and to the same stream without it. -/
theorem ipfs_map_spec_witness :
    (ipfs_map (Except.ok [⟨1, "a"⟩, ⟨2, "b"⟩]) (fun v _ => Except.ok [(⟨"sg", "T", v⟩,
        CacheOp.removed)]) "QmX" "cb" Value.null ["json"]).res
      = Except.ok [[(⟨"sg", "T", "a"⟩, CacheOp.removed)], [(⟨"sg", "T", "b"⟩,
        CacheOp.removed)]]
    ∧ (ipfs_map (Except.ok [⟨1, "a"⟩, ⟨2, "b"⟩]) (fun v _ => Except.ok [(⟨"sg", "T", v⟩,
        CacheOp.removed)]) "QmX" "cb" Value.null []).fetched = false := by
  have h := ipfs_map_spec (Except.ok [⟨1, "a"⟩, ⟨2, "b"⟩])
    (fun v _ => Except.ok [(⟨"sg", "T", v⟩, CacheOp.removed)]) "QmX" "cb" Value.null
    ["json"] [⟨1, "a"⟩, ⟨2, "b"⟩]
    [[(⟨"sg", "T", "a"⟩, CacheOp.removed)], [(⟨"sg", "T", "b"⟩, CacheOp.removed)]]
  have h2 := ipfs_map_spec (Except.ok [⟨1, "a"⟩, ⟨2, "b"⟩])
    (fun v _ => Except.ok [(⟨"sg", "T", v⟩, CacheOp.removed)]) "QmX" "cb" Value.null
    [] [⟨1, "a"⟩, ⟨2, "b"⟩]
    [[(⟨"sg", "T", "a"⟩, CacheOp.removed)], [(⟨"sg", "T", "b"⟩, CacheOp.removed)]]
  exact ⟨(h.1 (by decide) rfl rfl).1, (h2.2 (by decide)).2.1⟩

end HostExportsModel
